import Mathlib

/-!
Shallow embedding of the purchase-to-issuance pipeline and the validation
decision engine of the ticketing backend, translated from the JavaScript
source files (api/tickets/buy.js, api/payments/paypal-webhook.js,
api/payments/verify.js, api/tickets/validate.js).

Monetary amounts are modelled exactly, in integer cents (the handlers only
ever compare two-decimal currency values, so the float epsilon 0.01 of the
source is the integer 1 here), JavaScript numbers used as counters as
naturals, and timestamps as integers (milliseconds).  External services
(PayPal, the blockchain registry, UUID generation) are modelled as explicit
parameters so that each handler becomes a pure function on an explicit
database state.
-/

/-- Math.round (a / b) for a positive divisor: nearest integer with ties
toward positive infinity, as used for quantity reconstruction in
paypal-webhook.js and verify.js (floor (a / b + 1/2) written over the
integers). -/
def jsRoundDiv (a b : Int) : Int := (2 * a + b).ediv (2 * b)

/-- A row of the events table: identity, capacity, the mutable
available_tickets counter, unit price and the event date. -/
structure EventRow where
  event_id : String
  total_tickets : Nat
  available_tickets : Nat
  ticket_price : Int
  event_date : Int
deriving Repr, DecidableEq

/-- A row of the payments table (the PurchaseIntent of the design).
buy.js inserts it without an event_id, so that field is optional. -/
structure Payment where
  payment_id : String
  user_id : String
  amount : Int
  payment_status : String
  paypal_order_id : Option String
  paypal_transaction_id : Option String
  event_id : Option String
deriving Repr, DecidableEq

/-- A row of the tickets table, with the fields the core reads or writes. -/
structure TicketRec where
  ticket_id : String
  user_id : String
  event_id : String
  payment_id : String
  ticket_status : String
  ticket_number : Nat
  total_tickets_in_group : Nat
  is_parent_ticket : Bool
  parent_ticket_id : Option String
  nft_token_id : String
  nft_mint_status : String
  blockchain_registered : Bool
deriving Repr, DecidableEq

/-- Supabase .single(): succeeds exactly when the filter selects one row. -/
def findSinglePayment (p : Payment → Bool) (ps : List Payment) : Option Payment :=
  match ps.filter p with
  | [x] => some x
  | _ => none

/-- Supabase .single() on the events table keyed by event_id. -/
def findSingleEvent (events : List EventRow) (eid : String) : Option EventRow :=
  match events.filter (fun e => e.event_id == eid) with
  | [x] => some x
  | _ => none

/-- The availability guard of buy.js: the request proceeds unless the
available counter read at the start of the request is below the quantity. -/
def availabilityCheckPasses (snapshotAvail quantity : Nat) : Bool :=
  !(decide (snapshotAvail < quantity))

/-- The reservation write of buy.js: available_tickets is set to the value
read earlier in the request minus the quantity.  It is an absolute write of
a previously read snapshot, not a conditional decrement of the current
counter. -/
def reserveWriteValue (snapshotAvail quantity : Nat) : Nat :=
  snapshotAvail - quantity

/-- The compensating write of restoreTicketAvailability in verify.js:
available_tickets is set to the value just read plus the reconstructed
quantity, unconditionally. -/
def restoreWriteValue (currentAvail quantity : Nat) : Nat :=
  currentAvail + quantity

/-- An update of the events table setting available_tickets on every row
matching the event id. -/
def updateEventAvail (events : List EventRow) (eid : String) (newAvail : Nat) :
    List EventRow :=
  events.map (fun e =>
    if e.event_id == eid then { e with available_tickets := newAvail } else e)

/-- restoreTicketAvailability from verify.js: reconstruct the quantity from
the payment amount and the current ticket price, then add it to the counter
value just read.  A payment without an event id, or whose event cannot be
found, is skipped. -/
def restoreTicketAvailability (events : List EventRow) (payment : Payment) :
    List EventRow :=
  match payment.event_id with
  | none => events
  | some eid =>
    match findSingleEvent events eid with
    | none => events
    | some ev =>
      updateEventAvail events eid
        (restoreWriteValue ev.available_tickets
          (jsRoundDiv payment.amount ev.ticket_price).toNat)

/-- The state the purchase-open handler of buy.js touches. -/
structure BuyState where
  events : List EventRow
  payments : List Payment
deriving Repr, DecidableEq

/-- Outcome of a purchase-open request. -/
inductive BuyOutcome where
  | rejected (msg : String)
  | failed (msg : String)
  | success (paymentId : String)
deriving Repr, DecidableEq

/-- The payment record inserted by buy.js: pending, no PayPal handles yet,
and no event id (buy.js does not store one). -/
def mkPendingPayment (paymentId userId : String) (amount : Int) : Payment :=
  { payment_id := paymentId
    user_id := userId
    amount := amount
    payment_status := "pending"
    paypal_order_id := none
    paypal_transaction_id := none
    event_id := none }

/-- The purchase-open handler of buy.js after authentication: validate the
quantity, look up the event, reject past events and insufficient
availability, insert a pending payment, write the reserved counter, then
call PayPal.  If the PayPal call fails the handler writes the original
snapshot back, deletes the payment record and reports the failure. -/
def buyHandler (paymentId orderId : String) (paypalFails : Bool) (nowIso : Int)
    (s : BuyState) (eventId : String) (quantity : Nat) (userId : String) :
    BuyOutcome × BuyState :=
  if quantity < 1 || quantity > 10 then
    (.rejected "Quantity must be between 1 and 10", s)
  else
    match findSingleEvent s.events eventId with
    | none => (.rejected "Event not found", s)
    | some ev =>
      if ev.event_date ≤ nowIso then
        (.rejected "Cannot purchase tickets for past events", s)
      else if !availabilityCheckPasses ev.available_tickets quantity then
        (.rejected "Only N tickets available", s)
      else
        let amount := ev.ticket_price * (quantity : Int)
        let s1 : BuyState :=
          { s with payments := s.payments ++ [mkPendingPayment paymentId userId amount] }
        let newAvail := reserveWriteValue ev.available_tickets quantity
        let s2 : BuyState :=
          { s1 with events := updateEventAvail s1.events eventId newAvail }
        if paypalFails then
          let s3 : BuyState :=
            { s2 with events := updateEventAvail s2.events eventId ev.available_tickets }
          let s4 : BuyState :=
            { s3 with payments := s3.payments.filter (fun p => !(p.payment_id == paymentId)) }
          (.failed "Failed to create PayPal order", s4)
        else
          let s3 : BuyState :=
            { s2 with payments := s2.payments.map (fun p =>
                if p.payment_id == paymentId
                then { p with paypal_order_id := some orderId } else p) }
          (.success paymentId, s3)

/-! ## Webhook model (api/payments/paypal-webhook.js, second draft) -/

/-- The first purchase unit of a PayPal webhook resource, with the fields
the handler reads.  An amount field carrying the string "0.00" is present
(truthy in JavaScript) with value 0. -/
structure PurchaseUnit where
  reference_id : Option String
  custom_id : Option String
  invoice_id : Option String
  amount_value : Option Int
deriving Repr, DecidableEq

/-- The resource object of a PayPal webhook notification. -/
structure WebhookResource where
  id : String
  supplementary_order_id : Option String
  invoice_id : Option String
  purchase_units : List PurchaseUnit
  amount_value : Option Int
deriving Repr, DecidableEq

/-- A PayPal webhook notification. -/
structure Notification where
  event_type : String
  resource : WebhookResource
deriving Repr, DecidableEq

/-- Order-handle extraction of paypal-webhook.js: for a capture event try
supplementary_data, then resource.invoice_id, then the first purchase unit
(custom_id, reference_id, invoice_id), finally fall back to the transaction
id; for an approved order the resource id is the order id. -/
def extractOrderId (n : Notification) : String :=
  if n.event_type == "PAYMENT.CAPTURE.COMPLETED" then
    match n.resource.supplementary_order_id with
    | some oid => oid
    | none =>
      match n.resource.invoice_id with
      | some oid => oid
      | none =>
        match n.resource.purchase_units.head? with
        | some pu =>
          match pu.custom_id with
          | some oid => oid
          | none =>
            match pu.reference_id with
            | some oid => oid
            | none =>
              match pu.invoice_id with
              | some oid => oid
              | none => n.resource.id
        | none => n.resource.id
  else if n.event_type == "CHECKOUT.ORDER.APPROVED" then
    n.resource.id
  else
    n.resource.id

/-- Captured-amount extraction of paypal-webhook.js: the first purchase
unit amount, else the resource amount, else zero. -/
def extractAmount (n : Notification) : Int :=
  match n.resource.purchase_units.head? with
  | some pu =>
    match pu.amount_value with
    | some v => v
    | none =>
      match n.resource.amount_value with
      | some v => v
      | none => 0
  | none =>
    match n.resource.amount_value with
    | some v => v
    | none => 0

/-- Result of the layered payment lookup of the webhook handler. -/
inductive LookupResult where
  | notFound
  | alreadyProcessed (p : Payment)
  | found (p : Payment)
deriving Repr, DecidableEq

/-- The layered payment lookup of paypal-webhook.js: pending payment by
order id; if the transaction id differs, pending payment by the transaction
id as order id, then by the stored transaction id, then any-status payment
by order id, skipping it when already confirmed. -/
def lookupPayment (payments : List Payment) (orderId txnId : String) : LookupResult :=
  match findSinglePayment
      (fun p => p.paypal_order_id == some orderId && p.payment_status == "pending")
      payments with
  | some p => .found p
  | none =>
    if txnId == orderId then
      .notFound
    else
      match findSinglePayment
          (fun p => p.paypal_order_id == some txnId && p.payment_status == "pending")
          payments with
      | some p => .found p
      | none =>
        match findSinglePayment
            (fun p => p.paypal_transaction_id == some txnId && p.payment_status == "pending")
            payments with
        | some p => .found p
        | none =>
          match (payments.filter (fun p => p.paypal_order_id == some orderId)).head? with
          | some p =>
            if p.payment_status == "confirmed" then .alreadyProcessed p else .found p
          | none => .notFound

/-- One ticket of an issuance batch, as built in processPaymentManually:
the i-th ticket (1-based) carries sequence number i, parent flag exactly
for i = 1, and every child references the id of the first ticket.  Fresh
ticket ids come from the ids generator and the registry token identifier is
derived from the ticket id. -/
def mkTicket (ids : Nat → String) (tokenOf : String → String)
    (payment : Payment) (ev : EventRow) (quantity i : Nat) : TicketRec :=
  { ticket_id := ids i
    user_id := payment.user_id
    event_id := ev.event_id
    payment_id := payment.payment_id
    ticket_status := "valid"
    ticket_number := i
    total_tickets_in_group := quantity
    is_parent_ticket := i == 1
    parent_ticket_id := if i == 1 then none else some (ids 1)
    nft_token_id := tokenOf (ids i)
    nft_mint_status := "pending"
    blockchain_registered := false }

/-- The issuance loop of processPaymentManually: one batch of quantity
tickets, numbered 1 to quantity. -/
def issueTickets (ids : Nat → String) (tokenOf : String → String)
    (payment : Payment) (ev : EventRow) (quantity : Nat) : List TicketRec :=
  (List.range quantity).map (fun j => mkTicket ids tokenOf payment ev quantity (j + 1))

/-- The update applied to a batch ticket after successful blockchain
registration. -/
def markMinted (t : TicketRec) : TicketRec :=
  { t with nft_mint_status := "minted", blockchain_registered := true }

/-- The update applied to a batch ticket after a failed blockchain
registration: only the registration fields change; the ticket keeps its
database status. -/
def markRegistrationFailed (t : TicketRec) : TicketRec :=
  { t with nft_mint_status := "failed", blockchain_registered := false }

/-- The database state the webhook handler touches. -/
structure Db where
  events : List EventRow
  payments : List Payment
  tickets : List TicketRec
deriving Repr, DecidableEq

/-- Event lookup of processPaymentManually: by the payment event id when
present, otherwise the fallback search over future events whose price
divides the payment amount into an integer quantity between 1 and 10. -/
def findEventForPayment (events : List EventRow) (payment : Payment)
    (nowIso : Int) : Option EventRow :=
  match payment.event_id with
  | some eid => findSingleEvent events eid
  | none =>
    (events.filter (fun e => nowIso ≤ e.event_date)).find? (fun e =>
      let q := payment.amount.ediv e.ticket_price
      payment.amount.emod e.ticket_price == 0 && decide (0 < q) && decide (q ≤ 10))

/-- processPaymentManually: look up the event, reconstruct the quantity,
mark the payment confirmed with the transaction handle, insert the ticket
batch, then mark the batch minted or failed according to the blockchain
registration outcome.  A missing event raises, which the handler reports as
a 500 with no state change. -/
def processPaymentManually (ids : Nat → String) (tokenOf : String → String)
    (regOk : Bool) (nowIso : Int) (db : Db) (payment : Payment)
    (txnId : String) : Option Db :=
  match findEventForPayment db.events payment nowIso with
  | none => none
  | some ev =>
    let quantity := (jsRoundDiv payment.amount ev.ticket_price).toNat
    let payments2 := db.payments.map (fun p =>
      if p.payment_id == payment.payment_id
      then { p with payment_status := "confirmed", paypal_transaction_id := some txnId }
      else p)
    let batch := issueTickets ids tokenOf payment ev quantity
    let inBatch := fun (t : TicketRec) => batch.any (fun b => b.ticket_id == t.ticket_id)
    let tickets2 := db.tickets ++ batch
    let tickets3 :=
      if regOk then tickets2.map (fun t => if inBatch t then markMinted t else t)
      else tickets2.map (fun t => if inBatch t then markRegistrationFailed t else t)
    some { db with payments := payments2, tickets := tickets3 }

/-- The HTTP outcome of a webhook delivery together with the database
state after the handler returns. -/
structure WebhookOutcome where
  httpStatus : Nat
  message : String
  db : Db
deriving Repr, DecidableEq

/-- The webhook handler of paypal-webhook.js (second draft): gate on the
event type, extract the order handle and captured amount, resolve the
payment, verify the amount only when a positive amount was extracted, then
process the payment. -/
def webhookHandler (ids : Nat → String) (tokenOf : String → String)
    (regOk : Bool) (nowIso : Int) (db : Db) (n : Notification) : WebhookOutcome :=
  if n.event_type != "PAYMENT.CAPTURE.COMPLETED" &&
      n.event_type != "CHECKOUT.ORDER.APPROVED" then
    ⟨200, "Event type not handled", db⟩
  else
    let orderId := extractOrderId n
    let txnId := n.resource.id
    let captured := extractAmount n
    match lookupPayment db.payments orderId txnId with
    | .notFound => ⟨404, "Payment record not found", db⟩
    | .alreadyProcessed _ => ⟨200, "Payment already processed (duplicate webhook)", db⟩
    | .found payment =>
      if 0 < captured ∧ (1 : Int) < |captured - payment.amount| then
        ⟨400, "Payment amount mismatch", db⟩
      else
        match processPaymentManually ids tokenOf regOk nowIso db payment txnId with
        | none => ⟨500, "Webhook processing failed", db⟩
        | some db2 => ⟨200, "Payment processed successfully", db2⟩

/-! ## Validation decision engine (buy.js validate draft, validate.js) -/

/-- Blockchain status record assembled by validateTicketOnBlockchain. -/
structure BlockchainStatus where
  is_revoked : Bool
  is_valid : Bool
  contract_status : Nat
  contract_verified : Bool
  bound_name : Option String
deriving Repr, DecidableEq

/-- The two shapes validateTicketOnBlockchain can return: a verified read
of the contract status (with the bound name fetched only when the token
exists on the registry), or the unverified default after any failure. -/
def chainResult (outcome : Option (Nat × Option String)) : BlockchainStatus :=
  match outcome with
  | some (status, name) =>
    { is_revoked := status == 2
      is_valid := status == 1
      contract_status := status
      contract_verified := true
      bound_name := if status == 1 || status == 2 then name else none }
  | none =>
    { is_revoked := false
      is_valid := false
      contract_status := 0
      contract_verified := false
      bound_name := none }

/-- Bound-name cross-check classification of the validate draft in buy.js. -/
def verificationStatus (dbName bcName : Option String) : String :=
  match dbName, bcName with
  | some d, some b => if d == b then "verified" else "mismatch"
  | some _, none => "database_only"
  | none, none => "legacy_ticket"
  | none, some _ => "blockchain_only"

/-- The decision cascade of the validate draft in buy.js (first match
wins): blockchain revocation, database revocation, token missing from a
reachable registry, non-valid database status, event over the one-hour
grace window, bound-name mismatch warning, otherwise valid. -/
def validationDecision (ticketStatus : String) (bc : BlockchainStatus)
    (eventDate nowMs : Int) (nameStatus : String) : String :=
  if bc.contract_verified && bc.is_revoked then "revoked"
  else if ticketStatus == "revoked" then "revoked"
  else if bc.contract_verified && !bc.is_valid && bc.contract_status == 0 then "invalid"
  else if ticketStatus != "valid" then "invalid"
  else if decide (eventDate < nowMs) && decide (3600000 < nowMs - eventDate) then "invalid"
  else if nameStatus == "mismatch" then "valid_with_warning"
  else "valid"

/-- Modelled from the spec: the ordered decision priority list of the
Validation Decision Engine (section 4.5), first match wins, stated over the
registry reachability flag and raw registry status. -/
def specVerdict (ticketStatus : String) (registryReachable : Bool)
    (registryStatus : Nat) (eventDate nowMs : Int) (nameStatus : String) : String :=
  if registryReachable && registryStatus == 2 then "revoked"
  else if ticketStatus == "revoked" then "revoked"
  else if registryReachable && registryStatus == 0 then "invalid"
  else if ticketStatus != "valid" then "invalid"
  else if decide (3600000 < nowMs - eventDate) then "invalid"
  else if nameStatus == "mismatch" then "valid_with_warning"
  else "valid"

/-! ## Scanner endpoint state (api/tickets/validate.js) -/

/-- The ticket fields the scanner endpoint reads, with the event date of
the joined event row. -/
structure StoredTicket where
  ticket_id : String
  ticket_status : String
  nft_token_id : Option String
  event_date : Int
deriving Repr, DecidableEq

/-- A row of the ticket_validation_log audit table. -/
structure LogEntry where
  ticket_id : String
  admin_id : String
  validation_status : String
  notes : String
deriving Repr, DecidableEq

/-- The state the scanner endpoint touches. -/
structure ValDb where
  tickets : List StoredTicket
  validation_log : List LogEntry
deriving Repr, DecidableEq

/-- logValidationAttempt: append one audit row; an insert failure is
swallowed and leaves the log unchanged. -/
def appendLog (logFails : Bool) (db : ValDb) (e : LogEntry) : ValDb :=
  if logFails then db else { db with validation_log := db.validation_log ++ [e] }

/-- The default blockchain status object of validate.js, used when no
token id is available for a registry call. -/
def defaultChainStatus : BlockchainStatus :=
  { is_revoked := false
    is_valid := false
    contract_status := 1
    contract_verified := false
    bound_name := none }

/-- The scanner endpoint of validate.js: look up the ticket, return revoked
early on a database revocation, otherwise query the registry when a token
id is available (chain gives the contract status of a reachable registry,
none on any failure), run the decision cascade, and append one audit row in
every decided path.  The returned pair is the verdict and the state after
the request. -/
def validateHandler (chain : String → Option Nat) (logFails : Bool)
    (nowMs : Int) (db : ValDb) (qrTicketId : String) (qrTokenId : Option String)
    (adminId : String) : String × ValDb :=
  match db.tickets.find? (fun t => t.ticket_id == qrTicketId) with
  | none =>
    ("invalid",
      appendLog logFails db ⟨qrTicketId, adminId, "invalid", "Ticket not found"⟩)
  | some t =>
    if t.ticket_status == "revoked" then
      ("revoked",
        appendLog logFails db ⟨qrTicketId, adminId, "revoked", "Ticket revoked in database"⟩)
    else
      let bc :=
        match qrTokenId with
        | some tok => chainResult ((chain tok).map (fun s => (s, none)))
        | none =>
          match t.nft_token_id with
          | some tok => chainResult ((chain tok).map (fun s => (s, none)))
          | none => defaultChainStatus
      let verdict :=
        if bc.contract_verified && bc.is_revoked then "revoked"
        else if t.ticket_status != "valid" then "invalid"
        else if decide (t.event_date < nowMs) && decide (3600000 < nowMs - t.event_date) then "invalid"
        else "valid"
      (verdict, appendLog logFails db ⟨qrTicketId, adminId, verdict, "decision"⟩)

/-- Repeated scanning of the same QR payload: run the scanner endpoint k
times, collecting the verdicts and threading the state. -/
def iterateValidate (chain : String → Option Nat) (logFails : Bool)
    (nowMs : Int) (k : Nat) (db : ValDb) (qrTicketId : String)
    (qrTokenId : Option String) (adminId : String) : List String × ValDb :=
  match k with
  | 0 => ([], db)
  | Nat.succ k2 =>
    let r1 := validateHandler chain logFails nowMs db qrTicketId qrTokenId adminId
    let rest := iterateValidate chain logFails nowMs k2 r1.2 qrTicketId qrTokenId adminId
    (r1.1 :: rest.1, rest.2)

/-! ## Concrete fixtures used by closed theorems and witnesses -/

/-- An event with capacity 10 whose counter is 8 after a reservation of 2. -/
def sampleEvent : EventRow := ⟨"E1", 10, 8, 1000, 100⟩

/-- A pending payment of 20 for two tickets of sampleEvent. -/
def samplePendingPayment : Payment :=
  ⟨"P1", "U1", 2000, "pending", some "OID", none, some "E1"⟩

/-- The same payment after a failed checkout. -/
def sampleFailedPayment : Payment :=
  ⟨"P1", "U1", 2000, "failed", some "OID", none, some "E1"⟩

/-- The same payment after a confirmed checkout. -/
def sampleConfirmedPayment : Payment :=
  ⟨"P1", "U1", 2000, "confirmed", some "OID", some "TXN0", some "E1"⟩

/-- A deterministic stand-in for the UUID generator. -/
def sampleIds : Nat → String := fun j => "T" ++ Nat.repr j

/-- A deterministic stand-in for the registry token derivation. -/
def sampleTokenOf : String → String := fun s => "K" ++ s

/-- A capture notification whose purchase unit carries the amount 0.00:
the field is present, so the handler extracts a captured amount of zero. -/
def zeroAmountCapture : Notification :=
  ⟨"PAYMENT.CAPTURE.COMPLETED", ⟨"TXN", some "OID", none, [⟨none, none, none, some 0⟩], none⟩⟩

/-- A capture notification carrying 25.00 against a stored amount of
20.00. -/
def overpaidCapture : Notification :=
  ⟨"PAYMENT.CAPTURE.COMPLETED", ⟨"TXN", some "OID", none, [⟨none, none, none, some 2500⟩], none⟩⟩

/-- A well-formed duplicate capture delivery for sampleConfirmedPayment. -/
def duplicateCapture : Notification :=
  ⟨"PAYMENT.CAPTURE.COMPLETED", ⟨"TXN", some "OID", none, [⟨none, none, none, some 2000⟩], none⟩⟩

/-- An order-approved notification whose resource id is the order handle. -/
def approvedOrderNotification : Notification :=
  ⟨"CHECKOUT.ORDER.APPROVED", ⟨"OID", none, none, [], none⟩⟩

/-- A notification with an event type the pipeline does not handle. -/
def deniedCapture : Notification :=
  ⟨"PAYMENT.CAPTURE.DENIED", ⟨"TXN", none, none, [], none⟩⟩

/-- Database with one pending payment and no tickets. -/
def samplePendingDb : Db := ⟨[sampleEvent], [samplePendingPayment], []⟩

/-- A ticket issued by the first delivery for sampleConfirmedPayment. -/
def samplePriorTicket : TicketRec :=
  ⟨"T1", "U1", "E1", "P1", "valid", 1, 2, true, none, "KT1", "minted", true⟩

/-- Database after the first successful delivery: confirmed payment and its
issued ticket. -/
def sampleConfirmedDb : Db := ⟨[sampleEvent], [sampleConfirmedPayment], [samplePriorTicket]⟩

/-- A stored ticket in status valid with no registry token. -/
def sampleStoredTicket : StoredTicket := ⟨"T1", "valid", none, 100⟩

/-- Scanner-side database with one valid ticket and an empty audit log. -/
def sampleValDb : ValDb := ⟨[sampleStoredTicket], []⟩

/-! ## Helper lemmas -/

/-- A map whose function fixes every element of the list is the identity. -/
theorem list_map_id_of_mem {α : Type} (l : List α) (f : α → α)
    (h : ∀ x ∈ l, f x = x) : l.map f = l := by
  induction l with
  | nil => rfl
  | cons a t ih =>
    simp only [List.map_cons, h a (by simp)]
    rw [ih (fun x hx => h x (by simp [hx]))]

/-- Unpacking a successful single-row event lookup into the filter shape. -/
theorem findSingleEvent_filter {evs : List EventRow} {eid : String} {ev : EventRow}
    (h : findSingleEvent evs eid = some ev) :
    evs.filter (fun e => e.event_id == eid) = [ev] := by
  unfold findSingleEvent at h
  rcases hf : evs.filter (fun e => e.event_id == eid) with _ | ⟨a, _ | ⟨b, t⟩⟩ <;>
    rw [hf] at h <;> simp_all

/-- Every row matching the id of a successful single-row lookup is that row. -/
theorem eq_of_mem_of_findSingleEvent {evs : List EventRow} {eid : String}
    {ev e : EventRow} (h : findSingleEvent evs eid = some ev)
    (hm : e ∈ evs) (hp : (e.event_id == eid) = true) : e = ev := by
  have : e ∈ evs.filter (fun x => x.event_id == eid) := List.mem_filter.2 ⟨hm, hp⟩
  rw [findSingleEvent_filter h] at this
  simpa using this

/-- Projection facts for the counter write. -/
theorem setAvail_event_id (e : EventRow) (x : Nat) :
    ({ e with available_tickets := x } : EventRow).event_id = e.event_id := rfl

/-- Two successive counter writes to the same event collapse to the last. -/
theorem updateEventAvail_twice (evs : List EventRow) (eid : String) (x y : Nat) :
    updateEventAvail (updateEventAvail evs eid x) eid y = updateEventAvail evs eid y := by
  unfold updateEventAvail
  rw [List.map_map]
  apply List.map_congr_left
  intro e _
  by_cases h : e.event_id = eid
  · simp [Function.comp, h, setAvail_event_id]
  · simp [Function.comp, h]

/-- Writing back the counter value of the looked-up row is a no-op. -/
theorem updateEventAvail_restore {evs : List EventRow} {eid : String} {ev : EventRow}
    (h : findSingleEvent evs eid = some ev) :
    updateEventAvail evs eid ev.available_tickets = evs := by
  unfold updateEventAvail
  apply list_map_id_of_mem
  intro e he
  by_cases hp : (e.event_id == eid) = true
  · rw [eq_of_mem_of_findSingleEvent h he hp]
    split <;> rfl
  · simp [hp]

/-- The audit-log append never touches the tickets table. -/
theorem appendLog_tickets (lf : Bool) (db : ValDb) (e : LogEntry) :
    (appendLog lf db e).tickets = db.tickets := by
  unfold appendLog
  split <;> rfl

/-- The scanner endpoint never writes to the tickets table on any path. -/
theorem validateHandler_tickets (chain : String → Option Nat) (lf : Bool)
    (nowMs : Int) (db : ValDb) (tid : String) (tok : Option String)
    (adminId : String) :
    (validateHandler chain lf nowMs db tid tok adminId).2.tickets = db.tickets := by
  unfold validateHandler
  split
  · exact appendLog_tickets ..
  · split
    · exact appendLog_tickets ..
    · exact appendLog_tickets ..

/-- A found ticket in status valid with no registry token and an event
within the grace window always gets the verdict valid. -/
theorem validateHandler_valid (chain : String → Option Nat) (lf : Bool)
    (nowMs : Int) (db : ValDb) (tid : String) (adminId : String)
    (t : StoredTicket)
    (hfind : db.tickets.find? (fun u => u.ticket_id == tid) = some t)
    (hstatus : t.ticket_status = "valid")
    (htok : t.nft_token_id = none)
    (hdate : ¬ 3600000 < nowMs - t.event_date) :
    (validateHandler chain lf nowMs db tid none adminId).1 = "valid" := by
  unfold validateHandler
  rw [hfind]
  simp [hstatus, htok, defaultChainStatus, hdate]

/-- Iterated scanning of a valid, token-free ticket returns valid each
time. -/
theorem iterateValidate_valid (chain : String → Option Nat) (lf : Bool)
    (nowMs : Int) (k : Nat) (tid : String) (adminId : String)
    (t : StoredTicket)
    (hstatus : t.ticket_status = "valid")
    (htok : t.nft_token_id = none)
    (hdate : ¬ 3600000 < nowMs - t.event_date) :
    ∀ db : ValDb, db.tickets.find? (fun u => u.ticket_id == tid) = some t →
      (iterateValidate chain lf nowMs k db tid none adminId).1
        = List.replicate k "valid" := by
  induction k with
  | zero => intro db _; rfl
  | succ k2 ih =>
    intro db hfind
    have hstep := validateHandler_valid chain lf nowMs db tid adminId t hfind hstatus htok hdate
    have hframe := validateHandler_tickets chain lf nowMs db tid none adminId
    unfold iterateValidate
    rw [List.replicate_succ]
    simp only [hstep]
    rw [ih ((validateHandler chain lf nowMs db tid none adminId).2) (by rw [hframe]; exact hfind)]

/-! ## Claim theorems -/

/-- C1: the claim says the reservation is a single guarded conditional
decrement and that reserve and release preserve 0 ≤ available ≤ total.
The code instead guards on a previously read snapshot and writes snapshot
minus quantity absolutely, and the release adds the quantity back
unconditionally each time it runs: on the concrete trace below a second
release pushes the counter to 12 on an event of capacity 10, violating the
upper half of the invariant, and a write based on a passing stale snapshot
goes through although the current counter fails the guard. -/
theorem c1_invariant_violated_by_release_and_stale_guard :
    availabilityCheckPasses 1 1 = true ∧
    reserveWriteValue 1 1 = 0 ∧
    availabilityCheckPasses 0 1 = false ∧
    (restoreTicketAvailability [sampleEvent] sampleFailedPayment).map
      (fun e => e.available_tickets) = [10] ∧
    (restoreTicketAvailability
        (restoreTicketAvailability [sampleEvent] sampleFailedPayment)
        sampleFailedPayment).map (fun e => e.available_tickets) = [12] ∧
    sampleEvent.total_tickets = 10 ∧ 10 < 12 := by
  decide

/-- C9: the claim says releasing the same reservation twice is a no-op.
restoreTicketAvailability reconstructs the quantity and adds it to the
counter on every call: on the concrete failed payment below the counter is
10 after one release and 12 after two, so the second release is not a
no-op. -/
theorem c9_release_not_idempotent :
    restoreTicketAvailability
        (restoreTicketAvailability [sampleEvent] sampleFailedPayment)
        sampleFailedPayment
      ≠ restoreTicketAvailability [sampleEvent] sampleFailedPayment ∧
    (restoreTicketAvailability [sampleEvent] sampleFailedPayment).map
      (fun e => e.available_tickets) = [10] ∧
    (restoreTicketAvailability
        (restoreTicketAvailability [sampleEvent] sampleFailedPayment)
        sampleFailedPayment).map (fun e => e.available_tickets) = [12] := by
  decide

/-- C4: issuing a batch for a confirmed purchase of quantity q ≥ 1 creates
exactly q tickets numbered 1 to q, with exactly one parent, the parent at
the head of the batch, and every child referencing the parent ticket id. -/
theorem c4_issuance_batch_shape (ids : Nat → String) (tokenOf : String → String)
    (payment : Payment) (ev : EventRow) (q : Nat) (hq : 1 ≤ q) :
    (issueTickets ids tokenOf payment ev q).length = q ∧
    (issueTickets ids tokenOf payment ev q).map (fun t => t.ticket_number)
      = (List.range q).map (fun j => j + 1) ∧
    ((issueTickets ids tokenOf payment ev q).filter
      (fun t => t.is_parent_ticket)).length = 1 ∧
    (issueTickets ids tokenOf payment ev q).head?.map
      (fun t => (t.ticket_id, t.is_parent_ticket)) = some (ids 1, true) ∧
    ∀ t ∈ issueTickets ids tokenOf payment ev q,
      t.is_parent_ticket = false → t.parent_ticket_id = some (ids 1) := by
  cases q with
  | zero => omega
  | succ q2 =>
    refine ⟨?_, ?_, ?_, ?_, ?_⟩
    · simp [issueTickets]
    · rw [issueTickets, List.map_map]
      rfl
    · rw [issueTickets, List.range_succ_eq_map, List.map_cons, List.map_map]
      rw [List.filter_cons]
      have hhead : (mkTicket ids tokenOf payment ev (q2 + 1) (0 + 1)).is_parent_ticket
          = true := rfl
      rw [hhead]
      have htail : ((List.range q2).map
            ((fun j => mkTicket ids tokenOf payment ev (q2 + 1) (j + 1)) ∘
              (fun j => j + 1))).filter (fun t => t.is_parent_ticket) = [] := by
        apply List.filter_eq_nil_iff.2
        intro t ht
        rcases List.mem_map.1 ht with ⟨j, _, rfl⟩
        show ¬ ((mkTicket ids tokenOf payment ev (q2 + 1) (j + 1 + 1)).is_parent_ticket = true)
        rw [show (mkTicket ids tokenOf payment ev (q2 + 1) (j + 1 + 1)).is_parent_ticket
            = ((j + 1 + 1) == 1) from rfl]
        simp
      rw [htail]
      rfl
    · rw [issueTickets, List.range_succ_eq_map, List.map_cons]
      rfl
    · intro t ht hnp
      rcases List.mem_map.1 ht with ⟨j, hj, rfl⟩
      by_cases h1 : j + 1 = 1
      · rw [show (mkTicket ids tokenOf payment ev (q2 + 1) (j + 1)).is_parent_ticket
            = ((j + 1) == 1) from rfl] at hnp
        simp [h1] at hnp
      · rw [show (mkTicket ids tokenOf payment ev (q2 + 1) (j + 1)).parent_ticket_id
            = (if (j + 1) == 1 then none else some (ids 1)) from rfl]
        simp only [beq_iff_eq, h1, ite_false]

/-- C4 witness: the shape theorem instantiated at a batch of three. -/
theorem c4_issuance_batch_shape_witness :
    (issueTickets sampleIds sampleTokenOf samplePendingPayment sampleEvent 3).length = 3 ∧
    (issueTickets sampleIds sampleTokenOf samplePendingPayment sampleEvent 3).map
      (fun t => t.ticket_number) = (List.range 3).map (fun j => j + 1) ∧
    ((issueTickets sampleIds sampleTokenOf samplePendingPayment sampleEvent 3).filter
      (fun t => t.is_parent_ticket)).length = 1 ∧
    (issueTickets sampleIds sampleTokenOf samplePendingPayment sampleEvent 3).head?.map
      (fun t => (t.ticket_id, t.is_parent_ticket)) = some (sampleIds 1, true) ∧
    ∀ t ∈ issueTickets sampleIds sampleTokenOf samplePendingPayment sampleEvent 3,
      t.is_parent_ticket = false → t.parent_ticket_id = some (sampleIds 1) :=
  c4_issuance_batch_shape sampleIds sampleTokenOf samplePendingPayment sampleEvent 3
    (by decide)

/-- C6: marking an issued batch after a failed registry registration only
changes the registration fields: every ticket of the batch keeps its
database status valid while its registration status becomes failed, and no
ticket is removed. -/
theorem c6_registration_failure_keeps_tickets_valid (ids : Nat → String)
    (tokenOf : String → String) (payment : Payment) (ev : EventRow) (q : Nat) :
    ((issueTickets ids tokenOf payment ev q).map markRegistrationFailed).map
      (fun t => t.ticket_status)
      = (issueTickets ids tokenOf payment ev q).map (fun t => t.ticket_status) ∧
    ((issueTickets ids tokenOf payment ev q).map markRegistrationFailed).map
      (fun t => t.ticket_status) = List.replicate q "valid" ∧
    ((issueTickets ids tokenOf payment ev q).map markRegistrationFailed).map
      (fun t => t.nft_mint_status) = List.replicate q "failed" ∧
    ((issueTickets ids tokenOf payment ev q).map markRegistrationFailed).length
      = (issueTickets ids tokenOf payment ev q).length := by
  refine ⟨?_, ?_, ?_, ?_⟩
  · rw [issueTickets, List.map_map, List.map_map, List.map_map]
    rfl
  · rw [issueTickets, List.map_map, List.map_map]
    rw [show (((fun t => t.ticket_status) ∘ markRegistrationFailed) ∘
        (fun j => mkTicket ids tokenOf payment ev q (j + 1)))
        = (fun _ => "valid") from rfl]
    rw [List.map_const', List.length_range]
  · rw [issueTickets, List.map_map, List.map_map]
    rw [show (((fun t => t.nft_mint_status) ∘ markRegistrationFailed) ∘
        (fun j => mkTicket ids tokenOf payment ev q (j + 1)))
        = (fun _ => "failed") from rfl]
    rw [List.map_const', List.length_range]
  · rw [List.length_map]

/-- C7: when the PayPal order creation fails after the reservation was
written, the handler writes the pre-reservation counter value back and
deletes the pending payment record before reporting the failure, so the
state after the request equals the state before it. -/
theorem c7_paypal_failure_rolls_back (s : BuyState) (eventId userId paymentId orderId : String)
    (q : Nat) (nowIso : Int) (ev : EventRow)
    (hev : findSingleEvent s.events eventId = some ev)
    (hfut : nowIso < ev.event_date)
    (hq1 : 1 ≤ q) (hq10 : q ≤ 10)
    (havail : q ≤ ev.available_tickets)
    (hfresh : ∀ p ∈ s.payments, p.payment_id ≠ paymentId) :
    buyHandler paymentId orderId true nowIso s eventId q userId
      = (.failed "Failed to create PayPal order", s) := by
  have h0 : ¬ q = 0 := by omega
  have hdate : ¬ ev.event_date ≤ nowIso := by omega
  have hpass : availabilityCheckPasses ev.available_tickets q = true := by
    simp [availabilityCheckPasses]
    omega
  have hevents :
      updateEventAvail
        (updateEventAvail s.events eventId (reserveWriteValue ev.available_tickets q))
        eventId ev.available_tickets = s.events := by
    rw [updateEventAvail_twice, updateEventAvail_restore hev]
  have hpays :
      (s.payments ++ [mkPendingPayment paymentId userId (ev.ticket_price * (q : Int))]).filter
        (fun p => !(p.payment_id == paymentId)) = s.payments := by
    rw [List.filter_append]
    rw [show ([mkPendingPayment paymentId userId (ev.ticket_price * (q : Int))].filter
        (fun p => !(p.payment_id == paymentId))) = [] from by simp [mkPendingPayment]]
    rw [List.append_nil]
    apply List.filter_eq_self.2
    intro p hp
    simp [hfresh p hp]
  simp [buyHandler, hev, h0, hq10, hdate, hpass, hevents, hpays]

/-- C7 witness: the rollback theorem at a concrete request. -/
theorem c7_paypal_failure_rolls_back_witness :
    buyHandler "P1" "O1" true 0 ⟨[sampleEvent], []⟩ "E1" 2 "U1"
      = (.failed "Failed to create PayPal order", ⟨[sampleEvent], []⟩) :=
  c7_paypal_failure_rolls_back ⟨[sampleEvent], []⟩ "E1" "U1" "P1" "O1" 2 0 sampleEvent
    (by decide) (by decide) (by decide) (by decide) (by decide) (by simp)

/-- C2: a capture notification that resolves (through the any-status
fallback search) to a payment already in status confirmed is acknowledged
with HTTP 200 and a duplicate-processing message, and the handler returns
with the database unchanged: the intent stays confirmed and the previously
issued tickets remain the only batch, so the pending-to-confirmed
transition happens at most once. -/
theorem c2_duplicate_webhook_acknowledged_without_reissue (ids : Nat → String)
    (tokenOf : String → String) (regOk : Bool) (nowIso : Int)
    (events : List EventRow) (tickets : List TicketRec)
    (p : Payment) (n : Notification) (oid : String)
    (htype : n.event_type = "PAYMENT.CAPTURE.COMPLETED")
    (hsup : n.resource.supplementary_order_id = some oid)
    (htxn : n.resource.id ≠ oid)
    (hord : p.paypal_order_id = some oid)
    (hconf : p.payment_status = "confirmed") :
    webhookHandler ids tokenOf regOk nowIso ⟨events, [p], tickets⟩ n
      = ⟨200, "Payment already processed (duplicate webhook)", ⟨events, [p], tickets⟩⟩ := by
  have hlook : lookupPayment [p] (extractOrderId n) n.resource.id = .alreadyProcessed p := by
    have hoid : extractOrderId n = oid := by
      simp [extractOrderId, htype, hsup]
    rw [hoid]
    simp [lookupPayment, findSinglePayment, hord, hconf, htxn, Ne.symm htxn]
  simp [webhookHandler, htype, hlook]

/-- C2 witness: a duplicate capture delivery against the state left by the
first delivery. -/
theorem c2_duplicate_webhook_acknowledged_without_reissue_witness :
    webhookHandler sampleIds sampleTokenOf true 0 sampleConfirmedDb duplicateCapture
      = ⟨200, "Payment already processed (duplicate webhook)", sampleConfirmedDb⟩ :=
  c2_duplicate_webhook_acknowledged_without_reissue sampleIds sampleTokenOf true 0
    [sampleEvent] [samplePriorTicket] sampleConfirmedPayment duplicateCapture "OID"
    rfl rfl (by decide) rfl rfl

/-- C3 counterexample: the claim quantifies over every notification whose
captured amount differs from the intent amount by more than one cent, but
a capture carrying the amount 0.00 (which differs from the stored 20.00 by
far more than the epsilon) is not rejected: the handler skips amount
verification for non-positive extracted amounts, confirms the intent and
issues two tickets. -/
theorem c3_counterexample_zero_amount_skips_check :
    (1 : Int) < |extractAmount zeroAmountCapture - samplePendingPayment.amount| ∧
    webhookHandler sampleIds sampleTokenOf true 0 samplePendingDb zeroAmountCapture
      ≠ ⟨400, "Payment amount mismatch", samplePendingDb⟩ ∧
    (webhookHandler sampleIds sampleTokenOf true 0 samplePendingDb zeroAmountCapture).message
      = "Payment processed successfully" ∧
    ((webhookHandler sampleIds sampleTokenOf true 0 samplePendingDb
        zeroAmountCapture).db.payments.map (fun p => p.payment_status)) = ["confirmed"] ∧
    (webhookHandler sampleIds sampleTokenOf true 0 samplePendingDb
        zeroAmountCapture).db.tickets.length = 2 := by
  decide

/-- C3 amended: for every capture notification whose extracted captured
amount is positive and differs from the resolved pending payment amount by
more than one cent, the webhook fails with the amount-mismatch error and
returns with the database unchanged: the intent stays pending and no
ticket is created. -/
theorem c3_amended_positive_amount_mismatch_rejected (ids : Nat → String)
    (tokenOf : String → String) (regOk : Bool) (nowIso : Int)
    (events : List EventRow) (tickets : List TicketRec)
    (p : Payment) (n : Notification) (oid : String)
    (htype : n.event_type = "PAYMENT.CAPTURE.COMPLETED")
    (hsup : n.resource.supplementary_order_id = some oid)
    (hord : p.paypal_order_id = some oid)
    (hpend : p.payment_status = "pending")
    (hpos : 0 < extractAmount n)
    (hdiff : (1 : Int) < |extractAmount n - p.amount|) :
    webhookHandler ids tokenOf regOk nowIso ⟨events, [p], tickets⟩ n
      = ⟨400, "Payment amount mismatch", ⟨events, [p], tickets⟩⟩ := by
  have hlook : lookupPayment [p] (extractOrderId n) n.resource.id = .found p := by
    have hoid : extractOrderId n = oid := by
      simp [extractOrderId, htype, hsup]
    rw [hoid]
    simp [lookupPayment, findSinglePayment, hord, hpend]
  simp [webhookHandler, htype, hlook, hpos, hdiff]

/-- C3 witness: a capture of 25.00 against a pending intent of 20.00 is
rejected with amount mismatch and no state change. -/
theorem c3_amended_positive_amount_mismatch_rejected_witness :
    webhookHandler sampleIds sampleTokenOf true 0 samplePendingDb overpaidCapture
      = ⟨400, "Payment amount mismatch", samplePendingDb⟩ :=
  c3_amended_positive_amount_mismatch_rejected sampleIds sampleTokenOf true 0
    [sampleEvent] [] samplePendingPayment overpaidCapture "OID"
    rfl rfl rfl rfl (by decide) (by decide)

/-- C8 counterexample: the claim says every notification whose event type
is not capture-completed is answered as a success no-op with no state
change, but a checkout-order-approved notification is let through the
gate: against a matching pending payment it confirms the intent and
creates tickets. -/
theorem c8_counterexample_order_approved_not_noop :
    approvedOrderNotification.event_type ≠ "PAYMENT.CAPTURE.COMPLETED" ∧
    (webhookHandler sampleIds sampleTokenOf true 0 samplePendingDb
        approvedOrderNotification).db ≠ samplePendingDb ∧
    (webhookHandler sampleIds sampleTokenOf true 0 samplePendingDb
        approvedOrderNotification).message = "Payment processed successfully" ∧
    (webhookHandler sampleIds sampleTokenOf true 0 samplePendingDb
        approvedOrderNotification).db.tickets.length = 2 := by
  decide

/-- C8 amended: the gate admits exactly the capture-completed and the
checkout-order-approved event types; every notification with any other
event type is answered 200 with the not-handled message and no state
change. -/
theorem c8_amended_other_event_types_are_noops (ids : Nat → String)
    (tokenOf : String → String) (regOk : Bool) (nowIso : Int)
    (db : Db) (n : Notification)
    (h1 : n.event_type ≠ "PAYMENT.CAPTURE.COMPLETED")
    (h2 : n.event_type ≠ "CHECKOUT.ORDER.APPROVED") :
    webhookHandler ids tokenOf regOk nowIso db n
      = ⟨200, "Event type not handled", db⟩ := by
  simp [webhookHandler, h1, h2]

/-- C8 witness: a capture-denied notification is a success no-op. -/
theorem c8_amended_other_event_types_are_noops_witness :
    webhookHandler sampleIds sampleTokenOf true 0 samplePendingDb deniedCapture
      = ⟨200, "Event type not handled", samplePendingDb⟩ :=
  c8_amended_other_event_types_are_noops sampleIds sampleTokenOf true 0
    samplePendingDb deniedCapture (by decide) (by decide)

/-- C5: the decision cascade of the validate draft coincides with the
ordered first-match-wins priority list of the spec on every blockchain
outcome; in particular a ticket whose database status is revoked always
gets the verdict revoked whatever the registry returned, and a bound-name
mismatch with no higher-priority disqualifying condition (database status
valid, registry unreachable or reporting the token valid, event within the
grace window) gets valid_with_warning, not invalid. -/
theorem c5_cascade_matches_spec_priorities (ts : String)
    (outcome : Option (Nat × Option String)) (dbName bcName : Option String)
    (eventDate nowMs : Int) :
    (validationDecision ts (chainResult outcome) eventDate nowMs
        (verificationStatus dbName bcName)
      = specVerdict ts (chainResult outcome).contract_verified
          (chainResult outcome).contract_status eventDate nowMs
          (verificationStatus dbName bcName)) ∧
    (ts = "revoked" →
      validationDecision ts (chainResult outcome) eventDate nowMs
        (verificationStatus dbName bcName) = "revoked") ∧
    (verificationStatus dbName bcName = "mismatch" → ts = "valid" →
      (outcome = none ∨ ∃ nm, outcome = some (1, nm)) →
      ¬ 3600000 < nowMs - eventDate →
      validationDecision ts (chainResult outcome) eventDate nowMs
        (verificationStatus dbName bcName) = "valid_with_warning") := by
  refine ⟨?_, ?_, ?_⟩
  · rcases outcome with _ | ⟨s, nm⟩
    · by_cases hd : 3600000 < nowMs - eventDate
      · have hd2 : eventDate < nowMs := by omega
        simp [validationDecision, specVerdict, chainResult, hd, hd2]
      · by_cases hd2 : eventDate < nowMs <;>
          simp [validationDecision, specVerdict, chainResult, hd, hd2]
    · by_cases hs2 : s = 2
      · simp [validationDecision, specVerdict, chainResult, hs2]
      · by_cases hs0 : s = 0
        · simp [validationDecision, specVerdict, chainResult, hs0, hs2]
        · by_cases hd : 3600000 < nowMs - eventDate
          · have hd2 : eventDate < nowMs := by omega
            simp [validationDecision, specVerdict, chainResult, hs0, hs2, hd, hd2]
          · by_cases hd2 : eventDate < nowMs <;>
              simp [validationDecision, specVerdict, chainResult, hs0, hs2, hd, hd2]
  · intro hts
    subst hts
    rcases outcome with _ | ⟨s, nm⟩
    · simp [validationDecision, chainResult]
    · by_cases hs2 : s = 2 <;> simp [validationDecision, chainResult, hs2]
  · intro hname hts houtcome hdate
    subst hts
    rcases houtcome with h | ⟨nm, h⟩ <;> subst h <;>
      simp [validationDecision, chainResult, hname, hdate]

/-- C5 witness: a database-revoked ticket against a registry that reports
the token valid still gets revoked, and an Alice-versus-Bob bound-name
mismatch on an otherwise clean ticket gets valid_with_warning. -/
theorem c5_cascade_matches_spec_priorities_witness :
    validationDecision "revoked" (chainResult (some (1, some "Alice"))) 0 0
      (verificationStatus (some "Alice") (some "Alice")) = "revoked" ∧
    validationDecision "valid" (chainResult (some (1, some "Bob"))) 0 0
      (verificationStatus (some "Alice") (some "Bob")) = "valid_with_warning" :=
  ⟨(c5_cascade_matches_spec_priorities "revoked" (some (1, some "Alice"))
      (some "Alice") (some "Alice") 0 0).2.1 rfl,
   (c5_cascade_matches_spec_priorities "valid" (some (1, some "Bob"))
      (some "Alice") (some "Bob") 0 0).2.2 (by decide) rfl
      (Or.inr ⟨some "Bob", rfl⟩) (by decide)⟩

/-- C10: the scanner endpoint never writes to the tickets table on any
path (its only write is the swallowed audit-log append), and repeated
validation of a ticket whose database status is valid, with no registry
token and an event within the grace window, yields the verdict valid every
single time: there is no transition to used and no double-entry
protection. -/
theorem c10_validation_never_writes_tickets (chain : String → Option Nat)
    (logFails : Bool) (nowMs : Int) (db : ValDb) (tid : String)
    (tok : Option String) (adminId : String) (k : Nat) (t : StoredTicket) :
    ((validateHandler chain logFails nowMs db tid tok adminId).2.tickets = db.tickets) ∧
    (db.tickets.find? (fun u => u.ticket_id == tid) = some t →
      t.ticket_status = "valid" → t.nft_token_id = none →
      ¬ 3600000 < nowMs - t.event_date →
      (iterateValidate chain logFails nowMs k db tid none adminId).1
        = List.replicate k "valid") := by
  refine ⟨validateHandler_tickets chain logFails nowMs db tid tok adminId, ?_⟩
  intro hfind hstatus htok hdate
  exact iterateValidate_valid chain logFails nowMs k tid adminId t hstatus htok hdate db hfind

/-- C10 witness: three scans of a valid ticket all return valid and leave
the tickets table untouched. -/
theorem c10_validation_never_writes_tickets_witness :
    ((validateHandler (fun _ => none) false 0 sampleValDb "T1" none "A1").2.tickets
      = sampleValDb.tickets) ∧
    ((iterateValidate (fun _ => none) false 0 3 sampleValDb "T1" none "A1").1
      = List.replicate 3 "valid") :=
  ⟨(c10_validation_never_writes_tickets (fun _ => none) false 0 sampleValDb "T1" none "A1"
      3 sampleStoredTicket).1,
   (c10_validation_never_writes_tickets (fun _ => none) false 0 sampleValDb "T1" none "A1"
      3 sampleStoredTicket).2 (by decide) rfl rfl (by decide)⟩
